import Mathlib

/-
Verification of the wifi-test repository (package wifi_test).

This file gives a shallow embedding, in Lean, of the pieces of the code
that the specification claims talk about:

  - src/wifi_test/scanner.py : get_band, parse_iw_scan_output
  - src/wifi_test/speedtest.py : parse_ookla_json, parse_iperf3_json,
    get_current_link_info, connect_to_network, reconnect_saved_network
  - src/wifi_test/cli.py : _run_speedtest_for_tool and the auto-connect
    campaign loop of the speedtest command (lines 595 to 758)
  - src/wifi_test/config.py : Config.iperf3_port_range, Config.get_iperf3_ports

Modelling conventions.  Python floats are modelled as rationals.  Calls to
external processes (nmcli, iw, speedtest, iperf3) and to the wall clock are
modelled as explicit parameters holding the data those calls would return.
Python exceptions are modelled with an Except monad; a caught exception
class is turned back into a value exactly where the source catches it.
Console output, sleeps and best-effort database writes are omitted: they do
not influence any value the claims mention.
-/

/-- Python str.startswith. -/
def pyStartsWith (s pre : String) : Bool :=
  pre.data.isPrefixOf s.data

/-- Python str.strip() with no argument: remove leading and trailing
whitespace (the ASCII whitespace classes the inputs at hand contain). -/
def pyStrip (s : String) : String :=
  (((s.data.dropWhile Char.isWhitespace).reverse.dropWhile
      Char.isWhitespace).reverse).asString

/-- ASCII lowering of one character, as str.lower acts on the characters
these inputs contain. -/
def pyLowerChar (c : Char) : Char :=
  if 'A' ≤ c && c ≤ 'Z' then Char.ofNat (c.toNat + 32) else c

/-- Python str.lower. -/
def pyLower (s : String) : String :=
  (s.data.map pyLowerChar).asString

/-- Worker for pySplitOn; the fuel starts above the character count, and one
character is consumed per call, so the fuel never runs out when the
separator is non-empty. -/
def pySplitOnGo (sep : List Char) : ℕ → List Char → List Char → List (List Char)
  | 0, cs, acc => [acc.reverse ++ cs]
  | fuel + 1, cs, acc =>
    match cs with
    | [] => [acc.reverse]
    | c :: rest =>
      if sep.isPrefixOf (c :: rest) then
        acc.reverse :: pySplitOnGo sep fuel (List.drop sep.length (c :: rest)) []
      else pySplitOnGo sep fuel rest (c :: acc)

/-- Python str.split(sep) for a non-empty separator: the pieces between
non-overlapping occurrences of sep, scanned left to right, empty pieces
kept.  (Python raises on an empty separator; no caller passes one.) -/
def pySplitOn (s sep : String) : List String :=
  if sep.isEmpty then [s]
  else (pySplitOnGo sep.data (s.data.length + 1) s.data []).map List.asString

/-- Worker for pyReplaceAll, same fuel discipline as pySplitOnGo. -/
def pyReplaceGo (old new : List Char) : ℕ → List Char → List Char → List Char
  | 0, cs, acc => acc.reverse ++ cs
  | fuel + 1, cs, acc =>
    match cs with
    | [] => acc.reverse
    | c :: rest =>
      if old.isPrefixOf (c :: rest) then
        pyReplaceGo old new fuel (List.drop old.length (c :: rest)) (new.reverse ++ acc)
      else pyReplaceGo old new fuel rest (c :: acc)

/-- Python str.replace(old, new) for a non-empty old: every non-overlapping
occurrence is replaced, scanning left to right.  (No caller passes an empty
old.) -/
def pyReplaceAll (s old new : String) : String :=
  if old.isEmpty then s
  else (pyReplaceGo old.data new.data (s.data.length + 1) s.data []).asString

/-- Worker for pySplitPred: split at every character satisfying p. -/
def pySplitPredGo (p : Char → Bool) : List Char → List Char → List (List Char)
  | [], acc => [acc.reverse]
  | c :: rest, acc =>
    if p c then acc.reverse :: pySplitPredGo p rest []
    else pySplitPredGo p rest (c :: acc)

/-- Splitting at every character satisfying a predicate, empty pieces kept;
filtering out the empty pieces afterwards gives Python str.split() with no
argument. -/
def pySplitPred (p : Char → Bool) (s : String) : List String :=
  (pySplitPredGo p s.data []).map List.asString

/-- Python exception classes that the embedded code can raise.  Only the
classes that the embedded fragments can actually produce are listed. -/
inductive PyExc where
  | typeError
  | keyError
  | valueError
  | attributeError
deriving DecidableEq, Repr

/-- Truthiness of a Python value that is either None or a str: None and the
empty string are falsy. -/
def pyTruthyOptStr : Option String → Bool
  | some s => !s.isEmpty
  | none => false

/-- Truthiness of a Python value that is either None or a float. -/
def pyTruthyOptQ : Option ℚ → Bool
  | some q => q != 0
  | none => false

/-- Python `x or y` for a None-or-str left operand and a str right operand,
as in `get_current_bssid(interface) or network.bssid` (cli.py line 685). -/
def pyOrStr (x : Option String) (y : String) : String :=
  if pyTruthyOptStr x then x.getD "" else y

/-- Calling a Python function that is defined with exactly two positional
parameters (such as `def connect_to_network(ssid, password)` in
speedtest.py line 98).  Supplying any other number of positional arguments
raises TypeError before the body runs. -/
def callPositional2 {α : Type} (impl : String → String → α) (args : List String) :
    Except PyExc α :=
  match args with
  | [a, b] => .ok (impl a b)
  | _ => .error .typeError

/-- Calling `def reconnect_saved_network(ssid)` (speedtest.py line 70), which
is defined with exactly one positional parameter.  Supplying two arguments
raises TypeError before the body runs.  Supplying a single None argument is
also modelled as TypeError: the body would pass None to subprocess.run,
which raises TypeError, and that class is not among the ones the body
catches.  (No call site in the repository passes a single argument.) -/
def callPositional1 {α : Type} (impl : String → α) (args : List (Option String)) :
    Except PyExc α :=
  match args with
  | [some a] => .ok (impl a)
  | _ => .error .typeError

/- ===================== JSON values (result of json.loads) ================ -/

/-- A decoded JSON value, the result of a successful `json.loads`. -/
inductive JVal where
  | null
  | bool (b : Bool)
  | num (q : ℚ)
  | str (s : String)
  | arr (xs : List JVal)
  | obj (kvs : List (String × JVal))
deriving Repr

/-- Truthiness of a decoded JSON value under Python rules. -/
def jTruthy : JVal → Bool
  | .null => false
  | .bool b => b
  | .num q => q != 0
  | .str s => !s.isEmpty
  | .arr xs => !xs.isEmpty
  | .obj kvs => !kvs.isEmpty

/-- Python `x or y` on decoded JSON values. -/
def jOr (x y : JVal) : JVal :=
  if jTruthy x then x else y

/-- Python `v.get(k, dflt)`.  Works when v is a dict; on any other value the
attribute lookup of `get` raises AttributeError. -/
def jGet (v : JVal) (k : String) (dflt : JVal) : Except PyExc JVal :=
  match v with
  | .obj kvs => .ok (((kvs.find? (fun p => p.1 == k)).map Prod.snd).getD dflt)
  | _ => .error .attributeError

/-- Python `v.get(k)` with its implicit default of None. -/
def jGet1 (v : JVal) (k : String) : Except PyExc JVal :=
  jGet v k .null

/-- Python `k in v` for a string k.  Key membership for dicts, substring
test for strings, element membership for lists; on numbers, booleans and
None the `in` operator raises TypeError. -/
def jContains (v : JVal) (k : String) : Except PyExc Bool :=
  match v with
  | .obj kvs => .ok (kvs.any (fun p => p.1 == k))
  | .str s => .ok (k.isEmpty || (pySplitOn s k).length > 1)
  | .arr xs => .ok (xs.any (fun x => match x with | .str t => t == k | _ => false))
  | _ => .error .typeError

/-- Python `v is None` on a decoded JSON value. -/
def jIsNull : JVal → Bool
  | .null => true
  | _ => false

/-- Digits of a numeral folded into a natural number. -/
def digitsToNat (cs : List Char) : ℕ :=
  cs.foldl (fun n c => n * 10 + (c.toNat - 48)) 0

/-- Unsigned plain decimal literal: digits, optionally split by one dot,
with at least one digit present. -/
def parseUnsignedDecimal (s : String) : Option ℚ :=
  match pySplitOn s "." with
  | [ip] =>
      if !ip.isEmpty && ip.data.all Char.isDigit then some (digitsToNat ip.data) else none
  | [ip, fp] =>
      if (ip.data.all Char.isDigit && fp.data.all Char.isDigit) && !(ip.isEmpty && fp.isEmpty) then
        some ((digitsToNat ip.data : ℚ) + (digitsToNat fp.data : ℚ) / ((10 : ℚ) ^ fp.length))
      else none
  | _ => none

/-- Python `float(s)` on a string, restricted to the plain decimal forms
(optional sign, digits, optional fraction) that the repository ever feeds
it; exponent, infinity, nan and underscore forms are not modelled. -/
def pyFloatOfString (s : String) : Option ℚ :=
  let t := pyStrip s
  if pyStartsWith t "-" then (parseUnsignedDecimal (t.drop 1)).map Neg.neg
  else if pyStartsWith t "+" then parseUnsignedDecimal (t.drop 1)
  else parseUnsignedDecimal t

/-- Python `int(s)` on a trimmed string: optional sign then digits. -/
def pyIntOfString (s : String) : Option ℤ :=
  let t := pyStrip s
  if pyStartsWith t "-" then
    (if !(t.drop 1).isEmpty && (t.drop 1).data.all Char.isDigit then
      some (-(digitsToNat (t.drop 1).data : ℤ)) else none)
  else if pyStartsWith t "+" then
    (if !(t.drop 1).isEmpty && (t.drop 1).data.all Char.isDigit then
      some ((digitsToNat (t.drop 1).data : ℤ)) else none)
  else
    (if !t.isEmpty && t.data.all Char.isDigit then some ((digitsToNat t.data : ℤ)) else none)

/-- Python `float(v)` on a decoded JSON value.  Numbers pass through, bools
coerce to 0 or 1, numeric strings are parsed (ValueError otherwise), and
every other value raises TypeError. -/
def pyFloat (v : JVal) : Except PyExc ℚ :=
  match v with
  | .num q => .ok q
  | .bool b => .ok (if b then 1 else 0)
  | .str s => match pyFloatOfString s with
      | some q => .ok q
      | none => .error .valueError
  | _ => .error .typeError

/-- Python `v / 1_000_000` as used on the bandwidth fields.  Numbers and
bools divide; any other operand raises TypeError. -/
def pyDivMillion (v : JVal) : Except PyExc ℚ :=
  match v with
  | .num q => .ok (q / 1000000)
  | .bool b => .ok ((if b then (1 : ℚ) else 0) / 1000000)
  | _ => .error .typeError

/- ===================== SpeedtestResult (speedtest.py lines 13 to 32) ===== -/

/-- The SpeedtestResult dataclass of speedtest.py.  Fields that the parsers
always fill with a float are rationals; fields that the Ookla parser copies
straight out of the decoded JSON keep the dynamic JSON type. -/
structure SpeedtestResult where
  tool : String
  timestamp : JVal
  ssid : Option String := none
  bssid : Option String := none
  download_mbps : ℚ := 0
  upload_mbps : ℚ := 0
  ping_ms : JVal := .num 0
  jitter_ms : JVal := .num 0
  server : JVal := .null
  isp : JVal := .null
  packet_loss : JVal := .num 0
  result_url : JVal := .null
deriving Repr

/-- The except clause shared by both result parsers: json.JSONDecodeError,
TypeError and KeyError are caught and turned into a None return; any other
exception (notably AttributeError and ValueError) keeps propagating. -/
def catchParseErrors (x : Except PyExc SpeedtestResult) :
    Except PyExc (Option SpeedtestResult) :=
  match x with
  | .ok r => .ok (some r)
  | .error .typeError => .ok none
  | .error .keyError => .ok none
  | .error e => .error e

/-- parse_ookla_json (speedtest.py lines 241 to 275).  The argument is the
result of json.loads on the input string: none when decoding failed (the
JSONDecodeError is caught and the function returns None), some v otherwise.
The now argument is the string datetime.now().isoformat() would produce. -/
def parse_ookla_json (decoded : Option JVal) (now : String) :
    Except PyExc (Option SpeedtestResult) :=
  match decoded with
  | none => .ok none
  | some data =>
    catchParseErrors (do
      let dl ← jGet data "download" (.obj [])
      let dlbw ← jGet dl "bandwidth" (.num 0)
      let download_mbps ← pyDivMillion (jOr dlbw (.num 0))
      let ul ← jGet data "upload" (.obj [])
      let ulbw ← jGet ul "bandwidth" (.num 0)
      let upload_mbps ← pyDivMillion (jOr ulbw (.num 0))
      let ping ← jGet data "ping" (.obj [])
      let latency ← jGet ping "latency" (.num 0)
      let ping_ms := jOr latency (.num 0)
      let ping2 ← jGet data "ping" (.obj [])
      let jitter ← jGet ping2 "jitter" (.num 0)
      let jitter_ms := jOr jitter (.num 0)
      let timestamp ← jGet data "timestamp" (.str now)
      let serverObj ← jGet data "server" (.obj [])
      let serverName ← jGet1 serverObj "name"
      let isp ← jGet1 data "isp"
      let packetLoss ← jGet data "packetLoss" (.num 0)
      let resultObj ← jGet data "result" (.obj [])
      let resultUrl ← jGet1 resultObj "url"
      pure { tool := "ookla"
             timestamp := timestamp
             download_mbps := download_mbps
             upload_mbps := upload_mbps
             ping_ms := ping_ms
             jitter_ms := jitter_ms
             server := serverName
             isp := isp
             packet_loss := packetLoss
             result_url := resultUrl })

/-- The helper _pick of parse_iperf3_json: walk the candidate summary maps
in order and return float(m.get(key) or 0.0) for the first truthy map that
contains the key with a non-None value; otherwise float(default) = 0. -/
def pickIperf3Field (key : String) : List JVal → Except PyExc ℚ
  | [] => .ok 0
  | m :: rest => do
    if jTruthy m then
      let mem ← jContains m key
      if mem then
        let v ← jGet1 m key
        if !jIsNull v then pyFloat (jOr v (.num 0))
        else pickIperf3Field key rest
      else pickIperf3Field key rest
    else pickIperf3Field key rest

/-- parse_iperf3_json (speedtest.py lines 278 to 334).  Same conventions as
parse_ookla_json. -/
def parse_iperf3_json (decoded : Option JVal) (now : String) :
    Except PyExc (Option SpeedtestResult) :=
  match decoded with
  | none => .ok none
  | some data =>
    catchParseErrors (do
      let summary ← jGet data "end" (.obj [])
      let sumSent ← jGet summary "sum_sent" (.obj [])
      let sumReceived ← jGet summary "sum_received" (.obj [])
      let sumOverall ← jGet summary "sum" (.obj [])
      let rbps ← jGet sumReceived "bits_per_second" (.num 0)
      let download_mbps ← pyDivMillion (jOr rbps (.num 0))
      let sbps ← jGet sumSent "bits_per_second" (.num 0)
      let upload_mbps ← pyDivMillion (jOr sbps (.num 0))
      let jitter_ms ← pickIperf3Field "jitter_ms" [sumReceived, sumOverall, sumSent]
      let lostPercent ← pickIperf3Field "lost_percent" [sumReceived, sumOverall, sumSent]
      let startInfo ← jGet data "start" (.obj [])
      let connectingTo ← jGet startInfo "connecting_to" (.obj [])
      let serverHost ← jGet connectingTo "host" (.str "Unknown")
      pure { tool := "iperf3"
             timestamp := .str now
             download_mbps := download_mbps
             upload_mbps := upload_mbps
             ping_ms := .num 0
             jitter_ms := .num jitter_ms
             server := serverHost
             packet_loss := .num lostPercent })

/-- The rational 15.2, given in normal form so that the kernel can compute
with it. -/
def q152over10 : ℚ := ⟨76, 5, by decide, by decide⟩

/-- The rational 1.1, given in normal form so that the kernel can compute
with it. -/
def q11over10 : ℚ := ⟨11, 10, by decide, by decide⟩

/-- The Ookla payload named by the spec:
download.bandwidth 12500000, upload.bandwidth 1250000, ping.latency 15.2,
ping.jitter 1.1. -/
def ooklaSamplePayload : JVal :=
  .obj [("download", .obj [("bandwidth", .num 12500000)]),
        ("upload", .obj [("bandwidth", .num 1250000)]),
        ("ping", .obj [("latency", .num q152over10), ("jitter", .num q11over10)])]

/- ===================== Scanner (scanner.py) ============================= -/

/-- get_band (scanner.py lines 29 to 44): fixed frequency-range lookup. -/
def get_band (freq_mhz : ℚ) : String :=
  if 2400 ≤ freq_mhz ∧ freq_mhz ≤ 2500 then "2.4GHz"
  else if 5000 ≤ freq_mhz ∧ freq_mhz ≤ 6000 then "5GHz"
  else if 6000 ≤ freq_mhz ∧ freq_mhz ≤ 7125 then "6GHz"
  else "Unknown"

/-- The WifiScanResult dataclass (scanner.py lines 11 to 26). -/
structure WifiScanResult where
  bssid : String
  ssid : String
  frequency : ℚ
  band : String
  signal : ℚ
  channel : Option ℤ := none
  security : Option String := none
  timestamp : Option String := none
deriving DecidableEq, Repr

/-- The current_data accumulator dict of parse_iw_scan_output: each key is
present exactly when the corresponding line has been parsed for the current
station block. -/
structure ScanData where
  ssid : Option String := none
  frequency : Option ℚ := none
  signal : Option ℚ := none
  channel : Option ℤ := none
  security : Option String := none
deriving DecidableEq, Repr

/-- The loop state of parse_iw_scan_output: the results accumulated so far,
the MAC of the station block being accumulated, and its field dict. -/
structure ScanState where
  results : List WifiScanResult
  bss : Option String
  data : ScanData
deriving DecidableEq, Repr

/-- Characters admitted by the station-delimiter pattern BSS ([0-9a-f:]+). -/
def isBssChar (c : Char) : Bool :=
  (('0' ≤ c && c ≤ '9') || ('a' ≤ c && c ≤ 'f')) || c = ':'

/-- The greedy match of the signal pattern -?[0-9]+[.]?[0-9]*[ \t]*dBm at the
head of a character list: optional minus, digits, optional dot with more
digits, optional whitespace, then the literal dBm.  For this pattern greedy
matching agrees with the backtracking regex engine, since a digit can never
begin the dot, whitespace or dBm parts. -/
def signalNumberAt (cs : List Char) : Option ℚ :=
  let (neg, cs1) := match cs with
    | '-' :: rest => (true, rest)
    | _ => (false, cs)
  let d1 := cs1.takeWhile Char.isDigit
  let cs2 := cs1.dropWhile Char.isDigit
  if d1.isEmpty then none
  else
    let (d2, cs3) := match cs2 with
      | '.' :: rest => (rest.takeWhile Char.isDigit, rest.dropWhile Char.isDigit)
      | _ => ([], cs2)
    let cs4 := cs3.dropWhile Char.isWhitespace
    if cs4.take 3 = ['d', 'B', 'm'] then
      let mag : ℚ := (digitsToNat d1 : ℚ) + (digitsToNat d2 : ℚ) / ((10 : ℚ) ^ d2.length)
      some (if neg then -mag else mag)
    else none

/-- re.search for the signal pattern: the leftmost position where the
pattern matches wins. -/
def searchSignal : List Char → Option ℚ
  | [] => none
  | c :: rest =>
    match signalNumberAt (c :: rest) with
    | some q => some q
    | none => searchSignal rest

/-- Flushing an accumulator into a result, as done by the two identical
save blocks of parse_iw_scan_output (scanner.py lines 66 to 81 and
131 to 142): a result is produced only when the current MAC, the
accumulated SSID and the accumulated frequency are all truthy. -/
def flushBss (bss : Option String) (d : ScanData) (now : String) :
    Option WifiScanResult :=
  if pyTruthyOptStr bss && (pyTruthyOptStr d.ssid && pyTruthyOptQ d.frequency) then
    some { bssid := bss.getD ""
           ssid := d.ssid.getD ""
           frequency := d.frequency.getD 0
           band := get_band (d.frequency.getD 0)
           signal := d.signal.getD 0
           channel := d.channel
           security := d.security
           timestamp := some now }
  else none

/-- The field-extraction elif chain of parse_iw_scan_output (scanner.py
lines 90 to 128), applied to the stripped line: each branch updates one key
of the current_data accumulator, and malformed numeric tokens are ignored
for that field. -/
def scanFieldLine (d : ScanData) (rawLine : String) : ScanData :=
  let l := pyStrip rawLine
  if pyStartsWith l "SSID: " then
    let s := pyStrip (pyReplaceAll l "SSID: " "")
    if !s.isEmpty then { d with ssid := some s } else d
  else if pyStartsWith l "freq: " then
    match pyFloatOfString (pyStrip (pyReplaceAll l "freq: " "")) with
    | some f => { d with frequency := some f }
    | none => d
  else if pyStartsWith l "signal: " then
    match searchSignal l.data with
    | some q => { d with signal := some q }
    | none => d
  else if pyStartsWith l "DS Parameter set: channel " then
    match pyIntOfString (pyStrip ((pySplitOn l "channel").getLastD "")) with
    | some c => { d with channel := some c }
    | none => d
  else if pyStartsWith l "RSN:" then
    { d with security := some "WPA2/WPA3" }
  else if pyStartsWith l "WPA:" then
    (if d.security = none then { d with security := some "WPA" } else d)
  else d

/-- One iteration of the line loop of parse_iw_scan_output (scanner.py
lines 62 to 128).  The clock argument returns the string
datetime.now().isoformat() yields for the i-th constructed result. -/
def scanStep (clock : ℕ → String) (st : ScanState) (line : String) : ScanState :=
  if pyStartsWith line "BSS " then
    -- save the previous station block when it has a truthy ssid and frequency
    let results1 :=
      match flushBss st.bss st.data (clock st.results.length) with
      | some r => st.results ++ [r]
      | none => st.results
    -- re.match of BSS ([0-9a-f:]+): start a new block only when it matches
    let tok := ((line.drop 4).data.takeWhile isBssChar).asString
    if !tok.isEmpty then { results := results1, bss := some tok, data := {} }
    else { results := results1, bss := st.bss, data := st.data }
  else if pyTruthyOptStr st.bss then
    { st with data := scanFieldLine st.data line }
  else st

/-- The state after the line loop of parse_iw_scan_output has consumed the
whole input. -/
def scanFold (clock : ℕ → String) (output : String) : ScanState :=
  (pySplitOn output "\n").foldl (scanStep clock) ⟨[], none, {}⟩

/-- parse_iw_scan_output (scanner.py lines 47 to 144): run the line loop,
then flush the final accumulator the same way. -/
def parse_iw_scan_output (clock : ℕ → String) (output : String) :
    List WifiScanResult :=
  match flushBss (scanFold clock output).bss (scanFold clock output).data
      (clock (scanFold clock output).results.length) with
  | some r => (scanFold clock output).results ++ [r]
  | none => (scanFold clock output).results

/-- Forgetting the timestamp field of a scan result. -/
def scrubTimestamp (r : WifiScanResult) : WifiScanResult :=
  { r with timestamp := none }

/- ============ Current link query (speedtest.py lines 147 to 238) ========= -/

/-- The BSSID validity test of get_current_link_info: six colon-separated
octets of two characters each. -/
def macLike (candidate : String) : Bool :=
  let octets := pySplitOn candidate ":"
  octets.length == 6 && octets.all (fun o => o.data.length == 2)

/-- One line of the loop of get_current_link_info (speedtest.py lines
171 to 186), updating the (ssid, bssid) pair. -/
def linkLineStep (acc : Option String × Option String) (raw : String) :
    Option String × Option String :=
  let line := pyStrip raw
  if pyStartsWith (pyLower line) "connected to " then
    let parts := (pySplitPred Char.isWhitespace line).filter (fun s => !s.isEmpty)
    if 3 ≤ parts.length then
      let candidate := pyLower (pyStrip (parts.getD 2 ""))
      if macLike candidate then (acc.1, some candidate) else acc
    else acc
  else if pyStartsWith line "SSID:" then
    let candidate := pyStrip (String.intercalate ":" ((pySplitOn line ":").drop 1))
    if !candidate.isEmpty then (some candidate, acc.2) else acc
  else acc

/-- get_current_link_info (speedtest.py lines 147 to 193) applied to the
stdout text of iw dev interface link.  Lines are modelled as the
newline-split of the text, which agrees with splitlines on every output
this code consumes. -/
def get_current_link_info (stdout : String) : Option String × Option String :=
  (pySplitOn stdout "\n").foldl linkLineStep (none, none)

/-- get_current_bssid (speedtest.py lines 225 to 238): the second component
of get_current_link_info. -/
def get_current_bssid_of (stdout : String) : Option String :=
  (get_current_link_info stdout).2

/-- The stamping of a successful speedtest result (cli.py lines 683 to 685):
result.ssid is assigned the loop variable ssid, which is the scan-time ssid
of the network being tested, and result.bssid is assigned
get_current_bssid(interface) or network.bssid. -/
def stampResult (r : SpeedtestResult) (liveBssid : Option String)
    (scanSsid scanBssid : String) : SpeedtestResult :=
  { r with ssid := some scanSsid, bssid := some (pyOrStr liveBssid scanBssid) }

/- ============ Config port range (config.py lines 290 to 312) ============= -/

/-- Config.iperf3_port_range (config.py lines 290 to 303): split the stored
string on a dash into exactly two integer endpoints, defaulting to
(5201, 5201) when unpacking or int parsing fails. -/
def iperf3_port_range (raw : String) : ℤ × ℤ :=
  match pySplitOn raw "-" with
  | [s, e] =>
    (match pyIntOfString s, pyIntOfString e with
     | some a, some b => (a, b)
     | _, _ => (5201, 5201))
  | _ => (5201, 5201)

/-- Config.get_iperf3_ports (config.py lines 305 to 312):
list(range(start, end + 1)). -/
def get_iperf3_ports (raw : String) : List ℤ :=
  let se := iperf3_port_range raw
  (List.range (se.2 + 1 - se.1).toNat).map (fun i => se.1 + i)

/- ============ Port fallback (cli.py lines 32 to 68) ===================== -/

/-- The port loop of _run_speedtest_for_tool for the iperf3 tool (cli.py
lines 56 to 66).  The attempt argument is the behaviour of
run_iperf3_speedtest on the configured server at a given port: ok (some r)
when it returns a result, ok none when it returns None, error m when it
raises RuntimeError with message m.  The second argument is the running
last_error value.  A non-null result returns immediately; when the ports
are exhausted the last recorded error is raised, or the generic message
when no attempt raised. -/
def runIperf3PortLoop (attempt : ℤ → Except String (Option SpeedtestResult)) :
    List ℤ → Option String → Except String SpeedtestResult
  | [], lastErr => .error (lastErr.getD "All iperf3 ports failed")
  | p :: rest, lastErr =>
    match attempt p with
    | .ok (some r) => .ok r
    | .ok none => runIperf3PortLoop attempt rest lastErr
    | .error e => runIperf3PortLoop attempt rest (some e)

/-- The value of the last_error variable after the port loop has walked the
whole list: the message of the last attempt that raised, if any. -/
def lastRecordedError (attempt : ℤ → Except String (Option SpeedtestResult)) :
    List ℤ → Option String → Option String
  | [], acc => acc
  | p :: rest, acc =>
    lastRecordedError attempt rest
      (match attempt p with | .error m => some m | _ => acc)

/-- _run_speedtest_for_tool (cli.py lines 32 to 68).  The iperf3Server
argument is cfg.iperf3_server (None or a string); ooklaRun is the behaviour
of run_ookla_speedtest on the interface. -/
def run_speedtest_for_tool (tool : String) (iperf3Server : Option String)
    (ports : List ℤ) (attempt : ℤ → Except String (Option SpeedtestResult))
    (ooklaRun : Except String (Option SpeedtestResult)) :
    Except String (Option SpeedtestResult) :=
  if tool = "iperf3" then
    if !pyTruthyOptStr iperf3Server then .error "IPERF3_SERVER not configured"
    else
      match runIperf3PortLoop attempt ports none with
      | .ok r => .ok (some r)
      | .error e => .error e
  else ooklaRun

/- ============ Campaign orchestrator (cli.py lines 595 to 758) =========== -/

/-- The behaviour of the external world during one campaign: what the
two-parameter connect_to_network body would return for a given (first,
second) argument pair, whether wait_for_connection reaches the activated
state while on a given network, whether the internet probe succeeds there,
what _run_speedtest_for_tool produces there (error m models a raised
exception with text m), the BSSID reported by get_current_bssid after
connecting, and the behaviour of the one-parameter reconnect_saved_network
body. -/
structure CampaignEnv where
  quiet : Bool
  connectImpl : String → String → Bool × String
  waitConnected : String → Bool
  internetUp : String → Bool
  runTool : String → Except String (Option SpeedtestResult)
  liveBssid : Option String
  reconnectImpl : String → Bool

/-- One entry of the results list built by the campaign loop (the dict
appended at cli.py lines 632, 659, 686, 716 and 731). -/
structure CampaignOutcome where
  ssid : String
  status : String
  signal : ℚ
  bssid : String
  band : String
  channel : Option ℤ
  security : Option String
  error : Option String := none
  result : Option SpeedtestResult := none
deriving Repr

/-- The scan fields every outcome dict copies from the network record. -/
def outcomeBase (net : WifiScanResult) (status : String) : CampaignOutcome :=
  { ssid := net.ssid, status := status, signal := net.signal,
    bssid := net.bssid, band := net.band, channel := net.channel,
    security := net.security }

/-- One iteration of the campaign loop (cli.py lines 596 to 748) for one
candidate network.  Returns the outcome appended to results together with
the number of disconnect_network invocations of the cycle, or the exception
that escaped the iteration.  The iteration starts with the
disconnect_network call of line 606; the connect call of lines 614 and 621
passes the three positional arguments (ssid, bssid, password) to
connect_to_network, which speedtest.py line 98 defines with the two
parameters (ssid, password), so that call raises TypeError, and no
enclosing try protects it.  The remaining branches embed lines 616 to 748:
wait_for_connection turning a connect success into a timeout failure, the
internet probe, the speedtest dispatch guarded by except Exception, and the
trailing disconnect of each branch. -/
def testOneNetwork (env : CampaignEnv) (password : String)
    (net : WifiScanResult) : Except PyExc (CampaignOutcome × ℕ) :=
  match callPositional2 env.connectImpl [net.ssid, net.bssid, password] with
  | .error e => .error e
  | .ok (c0, msg0) =>
    let connected := c0 && env.waitConnected net.ssid
    let errMsg :=
      if c0 && !env.waitConnected net.ssid then
        (if env.quiet then "Connection timeout"
         else "Connection timeout - interface not activated")
      else msg0
    if !connected then
      .ok ({ outcomeBase net "connection_failed" with error := some errMsg }, 2)
    else if !env.internetUp net.ssid then
      .ok (outcomeBase net "no_internet", 2)
    else
      match env.runTool net.ssid with
      | .ok (some r) =>
        .ok ({ outcomeBase net "success" with
               result := some (stampResult r env.liveBssid net.ssid net.bssid) }, 2)
      | .ok none => .ok (outcomeBase net "test_failed", 2)
      | .error e => .ok ({ outcomeBase net "error" with error := some e }, 2)

/-- The campaign loop over the candidate networks, threading the results
list and the count of disconnect_network invocations; an exception escaping
an iteration aborts the whole loop and discards the local results list,
exactly as an uncaught Python exception would. -/
def runNetworkTestsAux (env : CampaignEnv) (password : String) :
    List WifiScanResult → List CampaignOutcome → ℕ →
    Except PyExc (List CampaignOutcome × ℕ)
  | [], acc, dc => .ok (acc, dc)
  | net :: rest, acc, dc =>
    match testOneNetwork env password net with
    | .error e => .error e
    | .ok (o, d) => runNetworkTestsAux env password rest (acc ++ [o]) (dc + d)

/-- Step 4 of the speedtest command (cli.py lines 750 to 758): when a
pre-campaign BSSID was recorded, call reconnect_saved_network with the two
arguments (original_bssid, original_ssid).  The callee is defined with one
parameter (speedtest.py line 70), so the call raises TypeError. -/
def restoreOriginalConnection (reconnectImpl : String → Bool)
    (originalSsid originalBssid : Option String) : Except PyExc Unit :=
  if pyTruthyOptStr originalBssid then
    match callPositional1 reconnectImpl [originalBssid, originalSsid] with
    | .error e => .error e
    | .ok _ => .ok ()
  else .ok ()

/-- The auto-connect campaign of the speedtest command, from entering the
per-network loop to finishing the restoration step (cli.py lines 595 to
758): test every network in order, then restore the original connection.
The result carries the final results list and the total count of
disconnect_network invocations. -/
def speedtestAutoConnect (env : CampaignEnv) (password : String)
    (networks : List WifiScanResult) (originalSsid originalBssid : Option String) :
    Except PyExc (List CampaignOutcome × ℕ) :=
  match runNetworkTestsAux env password networks [] 0 with
  | .error e => .error e
  | .ok (outs, dc) =>
    match restoreOriginalConnection env.reconnectImpl originalSsid originalBssid with
    | .error e => .error e
    | .ok _ => .ok (outs, dc)

/- ============ Auxiliary definitions and concrete inputs ================= -/

/-- Two scanner loop states agree up to timestamps: same current MAC, same
accumulator dict, and result lists equal after the timestamp field is
forgotten. -/
def ScanRel (s1 s2 : ScanState) : Prop :=
  s1.bss = s2.bss ∧ s1.data = s2.data ∧
    s1.results.map scrubTimestamp = s2.results.map scrubTimestamp

/-- A well-formed one-station scan block with SSID x and frequency 2412 and
no signal line. -/
def scanNoSignalInput : String :=
  "BSS aa:bb:cc:dd:ee:ff\n\tSSID: x\n\tfreq: 2412"

/-- The result parse_iw_scan_output produces for scanNoSignalInput under the
constant clock t. -/
def scanNoSignalParsed : WifiScanResult :=
  { bssid := "aa:bb:cc:dd:ee:ff", ssid := "x", frequency := 2412,
    band := "2.4GHz", signal := 0, channel := none, security := none,
    timestamp := some "t" }

/-- A one-station scan block whose frequency line parses to 0.0: the SSID is
present and non-empty and the frequency has been parsed, yet the accumulator
fails the truthiness test of the save blocks. -/
def scanZeroFreqInput : String :=
  "BSS aa:bb:cc:dd:ee:ff\n\tSSID: x\n\tfreq: 0"

/-- A sample iw dev link stdout in which the live network is named LIVE. -/
def linkSampleStdout : String :=
  "Connected to aa:bb:cc:dd:ee:ff (on wlan0)\n\tSSID: LIVE"

/-- A minimal successful iperf3 result record. -/
def sampleIperf3Result : SpeedtestResult :=
  { tool := "iperf3", timestamp := .str "t" }

/-- A run_iperf3_speedtest behaviour in which ports other than 5203 raise
RuntimeError and port 5203 returns a result. -/
def attemptOnly5203 : ℤ → Except String (Option SpeedtestResult) :=
  fun p => if p = 5203 then .ok (some sampleIperf3Result)
           else .error "connection refused"

/-- A concrete campaign environment: connecting fails on the second
network, every other step succeeds. -/
def sampleCampaignEnv : CampaignEnv :=
  { quiet := false
    connectImpl := fun ssid _ => if ssid = "Net2" then (false, "no AP") else (true, "")
    waitConnected := fun _ => true
    internetUp := fun _ => true
    runTool := fun _ => .ok (some sampleIperf3Result)
    liveBssid := none
    reconnectImpl := fun _ => true }

/-- Three concrete candidate networks for the campaign scenario of the
spec, the second of which sampleCampaignEnv fails to connect to. -/
def sampleNet1 : WifiScanResult :=
  { bssid := "aa:aa:aa:aa:aa:01", ssid := "Net1", frequency := 2412,
    band := "2.4GHz", signal := -40, timestamp := some "t" }

def sampleNet2 : WifiScanResult :=
  { bssid := "aa:aa:aa:aa:aa:02", ssid := "Net2", frequency := 2437,
    band := "2.4GHz", signal := -50, timestamp := some "t" }

def sampleNet3 : WifiScanResult :=
  { bssid := "aa:aa:aa:aa:aa:03", ssid := "Net3", frequency := 2462,
    band := "2.4GHz", signal := -60, timestamp := some "t" }

/- ======================= Helper lemmas ================================== -/

/-- A nonempty optional string is truthy. -/
lemma pyTruthyOptStr_of_ne {s : String} (h : s ≠ "") :
    pyTruthyOptStr (some s) = true := by
  have he : s.isEmpty = false := by
    cases he : s.isEmpty
    · rfl
    · exact absurd ((String.isEmpty_iff s).mp he) h
  simp [pyTruthyOptStr, he]

/-- The port loop returns the result of the first port whose attempt comes
back non-null, whatever the running last error is, as long as every earlier
port failed. -/
lemma runIperf3PortLoop_first_success
    (attempt : ℤ → Except String (Option SpeedtestResult))
    (p : ℤ) (post : List ℤ) (r : SpeedtestResult) :
    ∀ (pre : List ℤ) (lastErr : Option String),
      (∀ q ∈ pre, ∀ r0, attempt q ≠ .ok (some r0)) →
      attempt p = .ok (some r) →
      runIperf3PortLoop attempt (pre ++ p :: post) lastErr = .ok r := by
  intro pre
  induction pre with
  | nil =>
    intro lastErr _ hp
    simp [runIperf3PortLoop, hp]
  | cons q pre ih =>
    intro lastErr hpre hp
    have hq := hpre q (by simp)
    cases hq2 : attempt q with
    | ok o =>
      cases o with
      | some r0 => exact absurd hq2 (hq r0)
      | none =>
        simpa [runIperf3PortLoop, hq2] using
          ih lastErr (fun x hx r0 => hpre x (by simp [hx]) r0) hp
    | error e =>
      simpa [runIperf3PortLoop, hq2] using
        ih (some e) (fun x hx r0 => hpre x (by simp [hx]) r0) hp

/-- When the port loop raises, no port of the list produced a non-null
result. -/
lemma runIperf3PortLoop_error_no_success
    (attempt : ℤ → Except String (Option SpeedtestResult)) :
    ∀ (ports : List ℤ) (lastErr : Option String) (e : String),
      runIperf3PortLoop attempt ports lastErr = .error e →
      ∀ q ∈ ports, ∀ r, attempt q ≠ .ok (some r) := by
  intro ports
  induction ports with
  | nil =>
    intro lastErr e _ q hq
    simp at hq
  | cons a ports ih =>
    intro lastErr e h q hq r
    cases ha : attempt a with
    | ok o =>
      cases o with
      | some r0 => simp [runIperf3PortLoop, ha] at h
      | none =>
        rw [List.mem_cons] at hq
        rcases hq with hq | hq
        · subst hq; simp [ha]
        · exact ih lastErr e (by simpa [runIperf3PortLoop, ha] using h) q hq r
    | error m =>
      rw [List.mem_cons] at hq
      rcases hq with hq | hq
      · subst hq; simp [ha]
      · exact ih (some m) e (by simpa [runIperf3PortLoop, ha] using h) q hq r

/-- When every port fails, the port loop raises the last recorded error, or
the generic message when no port raised. -/
lemma runIperf3PortLoop_all_fail
    (attempt : ℤ → Except String (Option SpeedtestResult)) :
    ∀ (ports : List ℤ) (lastErr : Option String),
      (∀ q ∈ ports, ∀ r, attempt q ≠ .ok (some r)) →
      runIperf3PortLoop attempt ports lastErr =
        .error ((lastRecordedError attempt ports lastErr).getD
          "All iperf3 ports failed") := by
  intro ports
  induction ports with
  | nil =>
    intro lastErr _
    simp [runIperf3PortLoop, lastRecordedError]
  | cons a ports ih =>
    intro lastErr hfail
    cases ha : attempt a with
    | ok o =>
      cases o with
      | some r0 => exact absurd ha (hfail a (by simp) r0)
      | none =>
        simpa [runIperf3PortLoop, lastRecordedError, ha] using
          ih lastErr (fun x hx r0 => hfail x (by simp [hx]) r0)
    | error m =>
      simpa [runIperf3PortLoop, lastRecordedError, ha] using
        ih (some m) (fun x hx r0 => hfail x (by simp [hx]) r0)

/- ======================= Claims C1 to C5 ================================ -/

/-- Claim C1: the spec asks that a campaign over three candidate networks
whose second network fails to connect produce three outcomes with
outcome 1 marked connection_failed, attempt networks 0 and 2 regardless,
and disconnect after every cycle.  The code cannot do any of this: for
every environment behaviour, password, triple of candidate networks and
remembered original connection, the campaign aborts with a TypeError
raised by the very first connect call (cli.py line 614 passes three
positional arguments to the two-parameter connect_to_network of
speedtest.py line 98), so no outcome list is produced at all. -/
theorem c1_campaign_crashes_before_any_outcome
    (env : CampaignEnv) (password : String) (n1 n2 n3 : WifiScanResult)
    (originalSsid originalBssid : Option String) :
    speedtestAutoConnect env password [n1, n2, n3] originalSsid originalBssid =
      .error PyExc.typeError :=
  rfl

/-- Claim C2, amended: parsing the Ookla payload with download.bandwidth
12500000, upload.bandwidth 1250000, ping.latency 15.2 and ping.jitter 1.1
yields download_mbps = 12.5 and upload_mbps = 1.25 (the code divides the
bandwidth fields by 1000000), ping_ms = 15.2 and jitter_ms = 1.1. -/
theorem c2_ookla_parse_sample_values :
    parse_ookla_json (some ooklaSamplePayload) "T" =
      .ok (some { tool := "ookla", timestamp := .str "T",
                  download_mbps := 25 / 2, upload_mbps := 5 / 4,
                  ping_ms := .num 15.2, jitter_ms := .num 1.1,
                  server := .null, isp := .null,
                  packet_loss := .num 0, result_url := .null }) := by
  calc parse_ookla_json (some ooklaSamplePayload) "T"
      = .ok (some { tool := "ookla", timestamp := .str "T",
                    download_mbps := (12500000 : ℚ) / 1000000,
                    upload_mbps := (1250000 : ℚ) / 1000000,
                    ping_ms := .num q152over10, jitter_ms := .num q11over10,
                    server := .null, isp := .null,
                    packet_loss := .num 0, result_url := .null }) := rfl
    _ = _ := by
      norm_num [q152over10, q11over10, Rat.mk'_eq_divInt, Rat.divInt_eq_div]

/-- Claim C2, counterexample: the claim expects download_mbps = 100 and
upload_mbps = 10 from that payload, but the parser returns no such record:
it divides the bandwidth numbers by 1000000, giving 12.5 and 1.25. -/
theorem c2_ookla_parse_sample_not_100 :
    ¬ ∃ r : SpeedtestResult,
        parse_ookla_json (some ooklaSamplePayload) "T" = .ok (some r) ∧
        r.download_mbps = 100 ∧ r.upload_mbps = 10 ∧
        r.ping_ms = .num 15.2 ∧ r.jitter_ms = .num 1.1 := by
  rintro ⟨r, hr, h100, -, -, -⟩
  have heval :
      parse_ookla_json (some ooklaSamplePayload) "T" =
        .ok (some { tool := "ookla", timestamp := .str "T",
                    download_mbps := (12500000 : ℚ) / 1000000,
                    upload_mbps := (1250000 : ℚ) / 1000000,
                    ping_ms := .num q152over10, jitter_ms := .num q11over10,
                    server := .null, isp := .null,
                    packet_loss := .num 0, result_url := .null }) := rfl
  rw [heval] at hr
  have hrr := (Option.some.injEq _ _).mp ((Except.ok.injEq _ _).mp hr.symm)
  subst hrr
  norm_num at h100

/-- Claim C3, amended: both parsers fail (return None) when json.loads
fails on the input string; but valid JSON lacking the expected structure
does not generally make them fail: when the top level is an object, every
missing key is defaulted, and both parsers return a zero-filled result, as
the empty object shows. -/
theorem c3_parse_failure_modes :
    (∀ now, parse_ookla_json none now = .ok none) ∧
    (∀ now, parse_iperf3_json none now = .ok none) ∧
    parse_ookla_json (some (.obj [])) "T" =
      .ok (some { tool := "ookla", timestamp := .str "T" }) ∧
    parse_iperf3_json (some (.obj [])) "T" =
      .ok (some { tool := "iperf3", timestamp := .str "T",
                  server := .str "Unknown" }) := by
  refine ⟨fun now => rfl, fun now => rfl, ?_, ?_⟩
  · calc parse_ookla_json (some (.obj [])) "T"
        = .ok (some { tool := "ookla", timestamp := .str "T",
                      download_mbps := (0 : ℚ) / 1000000,
                      upload_mbps := (0 : ℚ) / 1000000 }) := rfl
      _ = _ := by norm_num
  · calc parse_iperf3_json (some (.obj [])) "T"
        = .ok (some { tool := "iperf3", timestamp := .str "T",
                      download_mbps := (0 : ℚ) / 1000000,
                      upload_mbps := (0 : ℚ) / 1000000,
                      server := .str "Unknown" }) := rfl
      _ = _ := by norm_num

/-- Claim C3, counterexample: the empty JSON object is valid JSON with the
whole mandatory result structure missing, yet neither parser fails on it:
both return a TestResult (with defaulted fields) instead of no result. -/
theorem c3_parsers_accept_empty_object :
    (∃ r, parse_ookla_json (some (.obj [])) "T" = .ok (some r)) ∧
    (∃ r, parse_iperf3_json (some (.obj [])) "T" = .ok (some r)) := by
  constructor
  · exact ⟨{ tool := "ookla", timestamp := .str "T",
             download_mbps := (0 : ℚ) / 1000000,
             upload_mbps := (0 : ℚ) / 1000000 }, rfl⟩
  · exact ⟨{ tool := "iperf3", timestamp := .str "T",
             download_mbps := (0 : ℚ) / 1000000,
             upload_mbps := (0 : ℚ) / 1000000,
             server := .str "Unknown" }, rfl⟩

/-- Claim C4: the spec asks that restoration of the pre-campaign connection
be attempted exactly once after the loop, trying the BSSID first and the
SSID second.  The code cannot attempt it: whenever a pre-campaign BSSID was
recorded (the only case in which cli.py line 757 runs), the call
reconnect_saved_network(original_bssid, original_ssid) passes two
positional arguments to the one-parameter reconnect_saved_network of
speedtest.py line 70 and raises TypeError, so no reconnect attempt of
either kind is made. -/
theorem c4_restore_call_raises_type_error
    (reconnectImpl : String → Bool) (originalSsid : Option String)
    (b : String) (hb : b ≠ "") :
    restoreOriginalConnection reconnectImpl originalSsid (some b) =
      .error PyExc.typeError := by
  unfold restoreOriginalConnection
  rw [pyTruthyOptStr_of_ne hb]
  rfl

/-- Claim C4 witness: the statement of c4_restore_call_raises_type_error at
a concrete reconnect behaviour and original connection. -/
theorem c4_restore_call_raises_type_error_witness :
    restoreOriginalConnection (fun _ => true) (some "HomeNet")
      (some "aa:bb:cc:dd:ee:ff") = .error PyExc.typeError :=
  c4_restore_call_raises_type_error (fun _ => true) (some "HomeNet")
    "aa:bb:cc:dd:ee:ff" (by decide)

/-- Claim C5: for the iperf3 tool the orchestrator walks the candidate
ports in order.  First conjunct: with a configured server, if every port
before p fails (raises or returns None) and p returns a non-null result,
_run_speedtest_for_tool returns exactly that result, surfacing none of the
earlier failures.  Second conjunct: an error is surfaced only when no port
produced a non-null result.  Third conjunct: when every port fails, the
surfaced error is the last recorded one, or the generic message when no
port raised.  Fourth conjunct: the configured range 5201-5203 yields the
candidate ports [5201, 5202, 5203] in order. -/
theorem c5_iperf3_port_fallback :
    (∀ (iperf3Server : Option String)
       (attempt : ℤ → Except String (Option SpeedtestResult))
       (ooklaRun : Except String (Option SpeedtestResult))
       (pre post : List ℤ) (p : ℤ) (r : SpeedtestResult),
       pyTruthyOptStr iperf3Server = true →
       (∀ q ∈ pre, ∀ r0, attempt q ≠ .ok (some r0)) →
       attempt p = .ok (some r) →
       run_speedtest_for_tool "iperf3" iperf3Server (pre ++ p :: post)
         attempt ooklaRun = .ok (some r)) ∧
    (∀ (attempt : ℤ → Except String (Option SpeedtestResult)) ports lastErr e,
       runIperf3PortLoop attempt ports lastErr = .error e →
       ∀ q ∈ ports, ∀ r, attempt q ≠ .ok (some r)) ∧
    (∀ (attempt : ℤ → Except String (Option SpeedtestResult)) ports,
       (∀ q ∈ ports, ∀ r, attempt q ≠ .ok (some r)) →
       runIperf3PortLoop attempt ports none =
         .error ((lastRecordedError attempt ports none).getD
           "All iperf3 ports failed")) ∧
    get_iperf3_ports "5201-5203" = [5201, 5202, 5203] := by
  refine ⟨?_, ?_, ?_, by decide⟩
  · intro iperf3Server attempt ooklaRun pre post p r hsrv hpre hp
    unfold run_speedtest_for_tool
    rw [if_pos rfl, hsrv]
    simp only [Bool.not_true, Bool.false_eq_true, if_false]
    rw [runIperf3PortLoop_first_success attempt p post r pre none hpre hp]
  · exact fun attempt ports lastErr e h =>
      runIperf3PortLoop_error_no_success attempt ports lastErr e h
  · exact fun attempt ports h =>
      runIperf3PortLoop_all_fail attempt ports none h

/-- Claim C5 witness: with server configured and candidate ports parsed
from the range 5201-5203, where ports 5201 and 5202 raise and 5203 returns
a result, the orchestrator returns the 5203 result. -/
theorem c5_iperf3_port_fallback_witness :
    run_speedtest_for_tool "iperf3" (some "192.0.2.1")
      (get_iperf3_ports "5201-5203") attemptOnly5203 (.ok none) =
      .ok (some sampleIperf3Result) := by
  rw [show get_iperf3_ports "5201-5203" = [5201, 5202] ++ 5203 :: [] from by decide]
  refine c5_iperf3_port_fallback.1 (some "192.0.2.1") attemptOnly5203 (.ok none)
    [5201, 5202] [] 5203 sampleIperf3Result (by decide) ?_ rfl
  intro q hq r0
  rcases List.mem_cons.mp hq with h | h
  · subst h
    simp [attemptOnly5203]
  · rcases List.mem_cons.mp h with h2 | h2
    · subst h2
      simp [attemptOnly5203]
    · simp at h2

/-- Claim C6: band classification.  For every frequency f the function
returns 2.4GHz exactly on 2400 to 2500, 5GHz exactly on 5000 to 6000, 6GHz
exactly on the rest of 6000 to 7125 (the boundary 6000 resolving to the
lower range by first-match order, as the claim itself notes), and Unknown
exactly otherwise; in particular get_band 6000 = 5GHz. -/
theorem c6_get_band_ranges :
    (∀ f : ℚ,
      (get_band f = "2.4GHz" ↔ 2400 ≤ f ∧ f ≤ 2500) ∧
      (get_band f = "5GHz" ↔ 5000 ≤ f ∧ f ≤ 6000) ∧
      (get_band f = "6GHz" ↔ 6000 < f ∧ f ≤ 7125) ∧
      (get_band f = "Unknown" ↔
        ¬(2400 ≤ f ∧ f ≤ 2500) ∧ ¬(5000 ≤ f ∧ f ≤ 6000) ∧
          ¬(6000 < f ∧ f ≤ 7125))) ∧
    get_band 6000 = "5GHz" := by
  constructor
  · intro f
    unfold get_band
    split_ifs with h1 h2 h3
    · exact ⟨iff_of_true rfl h1,
        iff_of_false (by decide) (fun hr => by
          rcases h1 with ⟨-, h1b⟩; rcases hr with ⟨hra, -⟩; linarith),
        iff_of_false (by decide) (fun hr => by
          rcases h1 with ⟨-, h1b⟩; rcases hr with ⟨hra, -⟩; linarith),
        iff_of_false (by decide) (fun hr => hr.1 h1)⟩
    · exact ⟨iff_of_false (by decide) h1,
        iff_of_true rfl h2,
        iff_of_false (by decide) (fun hr => by
          rcases h2 with ⟨-, h2b⟩; rcases hr with ⟨hra, -⟩; linarith),
        iff_of_false (by decide) (fun hr => hr.2.1 h2)⟩
    · have hlt : 6000 < f := by
        rcases h3 with ⟨h3a, -⟩
        rcases lt_or_eq_of_le h3a with hlt | heq
        · exact hlt
        · exact absurd (by constructor <;> linarith : 5000 ≤ f ∧ f ≤ 6000) h2
      exact ⟨iff_of_false (by decide) h1,
        iff_of_false (by decide) h2,
        iff_of_true rfl ⟨hlt, h3.2⟩,
        iff_of_false (by decide) (fun hr => hr.2.2 ⟨hlt, h3.2⟩)⟩
    · exact ⟨iff_of_false (by decide) h1,
        iff_of_false (by decide) h2,
        iff_of_false (by decide) (fun hr => h3 ⟨le_of_lt hr.1, hr.2⟩),
        iff_of_true rfl ⟨h1, h2, fun hr => h3 ⟨le_of_lt hr.1, hr.2⟩⟩⟩
  · norm_num [get_band]

/- ======================= Scanner lemmas and C7 to C10 =================== -/

/-- Flushing with two different clock readings gives the same result up to
the timestamp field. -/
lemma flushBss_map_scrub (b : Option String) (d : ScanData) (t1 t2 : String) :
    (flushBss b d t1).map scrubTimestamp = (flushBss b d t2).map scrubTimestamp := by
  unfold flushBss
  split_ifs with h
  · simp [scrubTimestamp]
  · rfl

/-- Two optional results equal up to timestamp are either both absent or
both present with scrub-equal values. -/
lemma scrub_option_cases {o1 o2 : Option WifiScanResult}
    (h : o1.map scrubTimestamp = o2.map scrubTimestamp) :
    (o1 = none ∧ o2 = none) ∨
      ∃ r1 r2, o1 = some r1 ∧ o2 = some r2 ∧
        scrubTimestamp r1 = scrubTimestamp r2 := by
  cases o1 <;> cases o2 <;> simp_all

/-- One parser step preserves agreement up to timestamps between two runs
with different clocks. -/
lemma scanStep_rel (c1 c2 : ℕ → String) (line : String) {s1 s2 : ScanState}
    (h : ScanRel s1 s2) : ScanRel (scanStep c1 s1 line) (scanStep c2 s2 line) := by
  obtain ⟨hb, hd, hr⟩ := h
  have hlen : s1.results.length = s2.results.length := by
    have := congrArg List.length hr
    simpa using this
  unfold scanStep
  by_cases hB : pyStartsWith line "BSS " = true
  · simp only [hB, if_true]
    have hflush : (flushBss s1.bss s1.data (c1 s1.results.length)).map scrubTimestamp
        = (flushBss s2.bss s2.data (c2 s2.results.length)).map scrubTimestamp := by
      rw [hb, hd, hlen]
      exact flushBss_map_scrub _ _ _ _
    rcases scrub_option_cases hflush with ⟨h1, h2⟩ | ⟨r1, r2, h1, h2, hs⟩
    · simp only [h1, h2]
      split_ifs with hT
      · exact ⟨rfl, rfl, hr⟩
      · exact ⟨hb, hd, hr⟩
    · simp only [h1, h2]
      split_ifs with hT
      · refine ⟨rfl, rfl, ?_⟩
        rw [List.map_append, List.map_append, hr]
        simp [hs]
      · refine ⟨hb, hd, ?_⟩
        rw [List.map_append, List.map_append, hr]
        simp [hs]
  · rw [Bool.not_eq_true] at hB
    simp only [hB, Bool.false_eq_true, if_false]
    rw [hb, hd]
    split_ifs with hT
    · exact ⟨rfl, rfl, hr⟩
    · exact ⟨hb, hd, hr⟩

/-- The whole line loop preserves agreement up to timestamps. -/
lemma scanFoldl_rel (c1 c2 : ℕ → String) :
    ∀ (lines : List String) {s1 s2 : ScanState}, ScanRel s1 s2 →
      ScanRel (lines.foldl (scanStep c1) s1) (lines.foldl (scanStep c2) s2) := by
  intro lines
  induction lines with
  | nil => exact fun h => h
  | cons l ls ih => exact fun h => ih (scanStep_rel c1 c2 l h)

/-- Claim C7, amended: parsing the same raw text twice yields result lists
that agree in every field except the observedAt timestamp, which is read
from the wall clock at each run; with equal clock readings the runs agree
exactly.  Formally, for every input text and every two clock behaviours the
two parses agree after the timestamp field is forgotten. -/
theorem c7_parse_deterministic_modulo_timestamp
    (output : String) (c1 c2 : ℕ → String) :
    (parse_iw_scan_output c1 output).map scrubTimestamp =
      (parse_iw_scan_output c2 output).map scrubTimestamp := by
  have hrel : ScanRel (scanFold c1 output) (scanFold c2 output) :=
    scanFoldl_rel c1 c2 (pySplitOn output "\n") ⟨rfl, rfl, rfl⟩
  obtain ⟨hb, hd, hr⟩ := hrel
  have hlen : (scanFold c1 output).results.length =
      (scanFold c2 output).results.length := by
    have := congrArg List.length hr
    simpa using this
  unfold parse_iw_scan_output
  have hflush : (flushBss (scanFold c1 output).bss (scanFold c1 output).data
        (c1 (scanFold c1 output).results.length)).map scrubTimestamp
      = (flushBss (scanFold c2 output).bss (scanFold c2 output).data
        (c2 (scanFold c2 output).results.length)).map scrubTimestamp := by
    rw [hb, hd, hlen]
    exact flushBss_map_scrub _ _ _ _
  rcases scrub_option_cases hflush with ⟨h1, h2⟩ | ⟨r1, r2, h1, h2, hs⟩
  · simp only [h1, h2]
    exact hr
  · simp only [h1, h2]
    rw [List.map_append, List.map_append, hr]
    simp [hs]

/-- Claim C7, counterexample: with the wall clock reading t1 during the
first parse and t2 during the second, the same well-formed scan text parses
to lists differing in the timestamp field, so the runs are not
bit-identical. -/
theorem c7_parse_differs_across_clocks :
    parse_iw_scan_output (fun _ => "t1") scanNoSignalInput ≠
      parse_iw_scan_output (fun _ => "t2") scanNoSignalInput := by
  decide

/-- Every result the flush step emits has a non-empty SSID and a nonzero
frequency, since the save blocks test exactly the truthiness of these two
accumulator entries. -/
lemma flushBss_fields {b : Option String} {d : ScanData} {t : String}
    {r : WifiScanResult} (h : flushBss b d t = some r) :
    r.ssid ≠ "" ∧ r.frequency ≠ 0 := by
  unfold flushBss at h
  split_ifs at h with hc
  · rw [Bool.and_eq_true, Bool.and_eq_true] at hc
    obtain ⟨-, hs, hf⟩ := hc
    injection h with h
    subst h
    constructor
    · cases hds : d.ssid with
      | none => rw [hds] at hs; simp [pyTruthyOptStr] at hs
      | some s =>
        rw [hds] at hs
        have hne : s ≠ "" := by
          intro he
          subst he
          exact absurd hs (by decide)
        simpa [hds] using hne
    · cases hdf : d.frequency with
      | none => rw [hdf] at hf; simp [pyTruthyOptQ] at hf
      | some q =>
        rw [hdf] at hf
        simp only [pyTruthyOptQ, bne_iff_ne] at hf
        simpa [hdf] using hf

/-- One parser step only ever appends results produced by the flush step,
so it preserves the field guarantees on the result list. -/
lemma scanStep_preserves_fields {c : ℕ → String} {st : ScanState} {line : String}
    (h : ∀ r ∈ st.results, r.ssid ≠ "" ∧ r.frequency ≠ 0) :
    ∀ r ∈ (scanStep c st line).results, r.ssid ≠ "" ∧ r.frequency ≠ 0 := by
  unfold scanStep
  by_cases hB : pyStartsWith line "BSS " = true
  · simp only [hB, if_true]
    intro r hr
    have hr2 : r ∈ (match flushBss st.bss st.data (c st.results.length) with
        | some x => st.results ++ [x]
        | none => st.results) := by
      split_ifs at hr <;> exact hr
    cases hf : flushBss st.bss st.data (c st.results.length) with
    | none => rw [hf] at hr2; exact h r hr2
    | some r1 =>
      rw [hf] at hr2
      rcases List.mem_append.mp hr2 with hold | hnew
      · exact h r hold
      · rw [List.mem_singleton] at hnew
        subst hnew
        exact flushBss_fields hf
  · rw [Bool.not_eq_true] at hB
    simp only [hB, Bool.false_eq_true, if_false]
    split_ifs with hT
    · exact h
    · exact h

/-- The whole line loop preserves the field guarantees. -/
lemma scanFoldl_preserves_fields (c : ℕ → String) :
    ∀ (lines : List String) (st : ScanState),
      (∀ r ∈ st.results, r.ssid ≠ "" ∧ r.frequency ≠ 0) →
      ∀ r ∈ (lines.foldl (scanStep c) st).results,
        r.ssid ≠ "" ∧ r.frequency ≠ 0 := by
  intro lines
  induction lines with
  | nil => exact fun st h => h
  | cons l ls ih => exact fun st h => ih _ (scanStep_preserves_fields h)

/-- Claim C8: an accumulated station record with an absent or empty SSID or
an absent frequency is dropped by the flush step (first conjunct, covering
both the per-delimiter flush and the final flush, which share that step),
and consequently every record the parser emits has a non-empty SSID and a
nonzero parsed frequency (second conjunct) — no record with empty fields is
ever emitted. -/
theorem c8_record_without_ssid_or_freq_dropped :
    (∀ (b : Option String) (d : ScanData) (t : String),
       (d.ssid = none ∨ d.ssid = some "" ∨ d.frequency = none) →
       flushBss b d t = none) ∧
    (∀ (clock : ℕ → String) (output : String) (r : WifiScanResult),
       r ∈ parse_iw_scan_output clock output →
       r.ssid ≠ "" ∧ r.frequency ≠ 0) := by
  constructor
  · intro b d t h
    unfold flushBss
    rcases h with h | h | h
    · simp [h, pyTruthyOptStr]
    · rw [h, show pyTruthyOptStr (some "") = false from by decide]
      simp
    · simp [h, pyTruthyOptQ]
  · intro clock output r hr
    have hg := scanFoldl_preserves_fields clock (pySplitOn output "\n")
      ⟨[], none, {}⟩ (by intro r hr; simp at hr)
    unfold parse_iw_scan_output at hr
    cases hf : flushBss (scanFold clock output).bss (scanFold clock output).data
        (clock (scanFold clock output).results.length) with
    | none =>
      rw [hf] at hr
      exact hg r hr
    | some r1 =>
      rw [hf] at hr
      rcases List.mem_append.mp hr with hold | hnew
      · exact hg r hold
      · rw [List.mem_singleton] at hnew
        subst hnew
        exact flushBss_fields hf

/-- Claim C8 witness: the record emitted for the concrete one-station input
indeed has a non-empty SSID and nonzero frequency, by the theorem applied
at that input. -/
theorem c8_record_without_ssid_or_freq_dropped_witness :
    scanNoSignalParsed.ssid ≠ "" ∧ scanNoSignalParsed.frequency ≠ 0 :=
  c8_record_without_ssid_or_freq_dropped.2 (fun _ => "t") scanNoSignalInput
    scanNoSignalParsed (by decide)

/- ======================= Link stamping: C9 ============================== -/

/-- One link-line step only stores a BSSID that passed the six-octet
validity test. -/
lemma linkLineStep_bssid_mac (acc : Option String × Option String) (raw : String)
    (h : ∀ b, acc.2 = some b → macLike b = true) :
    ∀ b, (linkLineStep acc raw).2 = some b → macLike b = true := by
  intro b
  unfold linkLineStep
  dsimp only
  split_ifs with h1 h2 h3 h4 h5 <;> intro hb
  · have hb2 := (Option.some.injEq _ _).mp hb
    rw [← hb2]
    exact h3
  · exact h b hb
  · exact h b hb
  · exact h b hb
  · exact h b hb
  · exact h b hb

/-- Every BSSID reported by get_current_link_info passed the six-octet
validity test. -/
lemma link_bssid_mac (stdout : String) (b : String)
    (hb : (get_current_link_info stdout).2 = some b) : macLike b = true := by
  unfold get_current_link_info at hb
  revert hb
  suffices hgen : ∀ (lines : List String) (acc : Option String × Option String),
      (∀ x, acc.2 = some x → macLike x = true) →
      ∀ x, (lines.foldl linkLineStep acc).2 = some x → macLike x = true by
    intro hb
    exact hgen (pySplitOn stdout "\n") (none, none) (by intro x hx; cases hx) b hb
  intro lines
  induction lines with
  | nil => exact fun acc h => h
  | cons l ls ih => exact fun acc h => ih _ (linkLineStep_bssid_mac acc l h)

/-- A validated BSSID is never the empty string. -/
lemma macLike_ne_empty {b : String} (h : macLike b = true) : b ≠ "" := by
  intro he
  subst he
  exact absurd h (by decide)

/-- Python or with a truthy left operand keeps the left operand. -/
lemma pyOrStr_of_ne {b : String} (y : String) (hb : b ≠ "") :
    pyOrStr (some b) y = b := by
  simp [pyOrStr, pyTruthyOptStr_of_ne hb]

/-- Claim C9, amended: when the speed-test runner succeeds, the result is
stamped before the Success outcome is recorded, with the scan-time ssid of
the network under test (the live-queried SSID of the link is not consulted)
and with the live-queried BSSID of the link when the query reports one,
falling back to the scan-time BSSID when it does not. -/
theorem c9_stamp_scan_ssid_live_bssid
    (r : SpeedtestResult) (stdout scanSsid scanBssid : String) :
    (stampResult r (get_current_link_info stdout).2 scanSsid scanBssid).ssid
        = some scanSsid ∧
    (∀ b, (get_current_link_info stdout).2 = some b →
      (stampResult r (get_current_link_info stdout).2 scanSsid scanBssid).bssid
        = some b) ∧
    ((get_current_link_info stdout).2 = none →
      (stampResult r (get_current_link_info stdout).2 scanSsid scanBssid).bssid
        = some scanBssid) := by
  refine ⟨rfl, ?_, ?_⟩
  · intro b hb
    have hne := macLike_ne_empty (link_bssid_mac stdout b hb)
    simp [stampResult, hb, pyOrStr_of_ne scanBssid hne]
  · intro hb
    simp [stampResult, hb, pyOrStr, pyTruthyOptStr]

/-- Claim C9 witness: the theorem applied to a concrete successful result,
a concrete iw link stdout reporting BSSID aa:bb:cc:dd:ee:ff, and scan-time
values SCAN and 11:22:33:44:55:66. -/
theorem c9_stamp_scan_ssid_live_bssid_witness :
    (stampResult sampleIperf3Result (get_current_link_info linkSampleStdout).2
        "SCAN" "11:22:33:44:55:66").ssid = some "SCAN" ∧
    (stampResult sampleIperf3Result (get_current_link_info linkSampleStdout).2
        "SCAN" "11:22:33:44:55:66").bssid = some "aa:bb:cc:dd:ee:ff" := by
  obtain ⟨h1, h2, -⟩ := c9_stamp_scan_ssid_live_bssid sampleIperf3Result
    linkSampleStdout "SCAN" "11:22:33:44:55:66"
  exact ⟨h1, h2 "aa:bb:cc:dd:ee:ff" (by decide)⟩

/-- Claim C9, counterexample: the live link query parses SSID LIVE from the
iw output, yet the stamped result carries the scan-time ssid SCAN — the code
assigns the loop variable ssid (cli.py line 684) and queries only the
BSSID, so live-queried values are not preferred for the ssid field. -/
theorem c9_stamp_ignores_live_ssid :
    (get_current_link_info linkSampleStdout).1 = some "LIVE" ∧
    (stampResult sampleIperf3Result (get_current_link_info linkSampleStdout).2
        "SCAN" "11:22:33:44:55:66").ssid = some "SCAN" ∧
    some "SCAN" ≠ (get_current_link_info linkSampleStdout).1 := by
  exact ⟨by decide, rfl, by decide⟩

/- ======================= Missing signal: C10 ============================ -/

/-- Claim C10, amended: an accumulated record with a non-empty SSID, a
parsed nonzero frequency and no parsed signal is still flushed, with the
signal field defaulting to 0.0 (first conjunct); end to end, the one-station
input with no signal line parses to exactly one record whose signal is 0
(second conjunct). -/
theorem c10_missing_signal_defaults_to_zero :
    (∀ (b : String) (d : ScanData) (now s : String) (f : ℚ),
       b ≠ "" → d.ssid = some s → s ≠ "" → d.frequency = some f → f ≠ 0 →
       d.signal = none →
       flushBss (some b) d now =
         some { bssid := b, ssid := s, frequency := f, band := get_band f,
                signal := 0, channel := d.channel, security := d.security,
                timestamp := some now }) ∧
    (parse_iw_scan_output (fun _ => "t") scanNoSignalInput = [scanNoSignalParsed] ∧
     scanNoSignalParsed.signal = 0) := by
  constructor
  · intro b d now s f hb hds hs hdf hf hsig
    unfold flushBss
    rw [hds, hdf, hsig, pyTruthyOptStr_of_ne hb, pyTruthyOptStr_of_ne hs,
      show pyTruthyOptQ (some f) = true from by simp [pyTruthyOptQ, hf]]
    rfl
  · exact ⟨by decide, rfl⟩

/-- Claim C10 witness: the flush statement of the theorem applied to the
concrete accumulator with SSID x, frequency 2412 and no signal. -/
theorem c10_missing_signal_defaults_to_zero_witness :
    flushBss (some "aa:bb:cc:dd:ee:ff")
      { ssid := some "x", frequency := some 2412, signal := none } "t" =
      some { bssid := "aa:bb:cc:dd:ee:ff", ssid := "x", frequency := 2412,
             band := get_band 2412, signal := 0, channel := none,
             security := none, timestamp := some "t" } :=
  c10_missing_signal_defaults_to_zero.1 "aa:bb:cc:dd:ee:ff"
    { ssid := some "x", frequency := some 2412, signal := none } "t" "x" 2412
    (by decide) rfl (by decide) rfl (by norm_num) rfl

/-- Claim C10, counterexample: on the input whose frequency line reads 0,
the accumulator holds a non-empty SSID, a parsed frequency and no signal,
yet the parser emits nothing: the truthiness test of the save blocks drops
a parsed frequency of 0.0, so the claim fails as stated for that input. -/
theorem c10_zero_frequency_record_dropped :
    (scanFold (fun _ => "t") scanZeroFreqInput).data.ssid = some "x" ∧
    (scanFold (fun _ => "t") scanZeroFreqInput).data.frequency = some 0 ∧
    (scanFold (fun _ => "t") scanZeroFreqInput).data.signal = none ∧
    parse_iw_scan_output (fun _ => "t") scanZeroFreqInput = [] := by
  exact ⟨by decide, by decide, by decide, by decide⟩

/-- Claim C1 witness: the theorem applied to the concrete three-network
scenario of the spec (second network refusing to connect): even there the
campaign crashes with TypeError before recording anything. -/
theorem c1_campaign_crashes_before_any_outcome_witness :
    speedtestAutoConnect sampleCampaignEnv "pw" [sampleNet1, sampleNet2, sampleNet3]
      (some "HomeNet") (some "aa:bb:cc:dd:ee:ff") = .error PyExc.typeError :=
  c1_campaign_crashes_before_any_outcome sampleCampaignEnv "pw"
    sampleNet1 sampleNet2 sampleNet3 (some "HomeNet") (some "aa:bb:cc:dd:ee:ff")

/-- Claim C3 witness: the theorem applied at a concrete clock string. -/
theorem c3_parse_failure_modes_witness :
    parse_ookla_json none "2024-01-01T00:00:00" = .ok none ∧
    parse_iperf3_json none "2024-01-01T00:00:00" = .ok none :=
  ⟨c3_parse_failure_modes.1 "2024-01-01T00:00:00",
   c3_parse_failure_modes.2.1 "2024-01-01T00:00:00"⟩

/-- Claim C6 witness: the theorem applied at the concrete frequencies 2412
and 6000. -/
theorem c6_get_band_ranges_witness :
    get_band 2412 = "2.4GHz" ∧ get_band 6000 = "5GHz" :=
  ⟨((c6_get_band_ranges.1 2412).1).mpr (by norm_num), c6_get_band_ranges.2⟩

/-- Claim C7 witness: the theorem applied to the concrete scan text and two
concrete clocks. -/
theorem c7_parse_deterministic_modulo_timestamp_witness :
    (parse_iw_scan_output (fun _ => "t1") scanNoSignalInput).map scrubTimestamp =
      (parse_iw_scan_output (fun _ => "t2") scanNoSignalInput).map scrubTimestamp :=
  c7_parse_deterministic_modulo_timestamp scanNoSignalInput
    (fun _ => "t1") (fun _ => "t2")
